import Mathlib

/-!
Shallow embedding of the tunnel-forwarding model of this repository:
`TunnelModel` (remoteExplorerService) and `TunnelViewModel` (tunnelView).

JavaScript `Map<number, Tunnel>` values are embedded as association lists
`List (Nat × α)` with the `Map.get` / `Map.has` / `Map.set` / `Map.delete`
semantics (set replaces in place at an existing key, otherwise appends;
delete removes the entry with the key).  Optional TypeScript fields become
`Option`; the async tunnel-service boundary is embedded by passing the
service response as an explicit argument and by recording the outgoing
service calls in the result.
-/

namespace TunnelSpec

/-- Embeds `Map.get`: value at the first entry whose key is `k`. -/
def mget {α : Type} (m : List (Nat × α)) (k : Nat) : Option α :=
  match m with
  | [] => none
  | p :: rest => if p.1 = k then some p.2 else mget rest k

/-- Embeds `Map.has`. -/
def mhas {α : Type} (m : List (Nat × α)) (k : Nat) : Bool :=
  (mget m k).isSome

/-- Embeds `Map.set`: replace in place at an existing key, otherwise append. -/
def mset {α : Type} (m : List (Nat × α)) (k : Nat) (v : α) : List (Nat × α) :=
  match m with
  | [] => [(k, v)]
  | p :: rest => if p.1 = k then (k, v) :: rest else p :: mset rest k v

/-- Embeds `Map.delete`: drop the entry with key `k`. -/
def mdelete {α : Type} (m : List (Nat × α)) (k : Nat) : List (Nat × α) :=
  match m with
  | [] => []
  | p :: rest => if p.1 = k then mdelete rest k else p :: mdelete rest k

theorem mget_mset_self {α : Type} (m : List (Nat × α)) (k : Nat) (v : α) :
    mget (mset m k v) k = some v := by
  induction m with
  | nil => simp [mget, mset]
  | cons p rest ih =>
      by_cases h : p.1 = k
      · simp [mget, mset, h]
      · simp [mget, mset, h, ih]

theorem mget_mset_ne {α : Type} (m : List (Nat × α)) (k k' : Nat) (v : α)
    (h : k' ≠ k) : mget (mset m k v) k' = mget m k' := by
  have h' : k ≠ k' := Ne.symm h
  induction m with
  | nil => simp [mget, mset, h']
  | cons p rest ih =>
      by_cases hp : p.1 = k
      · have hpk : p.1 ≠ k' := by rw [hp]; exact h'
        simp [mget, mset, hp, h', hpk]
      · by_cases hp' : p.1 = k'
        · simp [mget, mset, hp, hp', h]
        · simp [mget, mset, hp, hp', ih]

theorem mget_mdelete_self {α : Type} (m : List (Nat × α)) (k : Nat) :
    mget (mdelete m k) k = none := by
  induction m with
  | nil => simp [mget, mdelete]
  | cons p rest ih =>
      by_cases h : p.1 = k
      · simpa [mdelete, h] using ih
      · simpa [mget, mdelete, h] using ih

theorem mget_mdelete_ne {α : Type} (m : List (Nat × α)) (k k' : Nat)
    (h : k' ≠ k) : mget (mdelete m k) k' = mget m k' := by
  induction m with
  | nil => simp [mget, mdelete]
  | cons p rest ih =>
      by_cases hp : p.1 = k
      · simpa [mget, mdelete, hp, Ne.symm h] using ih
      · by_cases hp' : p.1 = k'
        · simp [mget, mdelete, hp, hp', h]
        · simpa [mget, mdelete, hp, hp'] using ih

theorem mhas_false_iff {α : Type} (m : List (Nat × α)) (k : Nat) :
    mhas m k = false ↔ mget m k = none := by
  simp [mhas, Option.isSome]
  cases mget m k <;> simp

theorem mhas_true_iff {α : Type} (m : List (Nat × α)) (k : Nat) :
    mhas m k = true ↔ ∃ v, mget m k = some v := by
  simp [mhas, Option.isSome]
  cases mget m k <;> simp

/-- Local addresses (`URI`), kept abstract as their string form. -/
structure URI where
  value : String
deriving DecidableEq, Repr

/-- The `Tunnel` interface of remoteExplorerService.  The TS field `local`
is called `localPort` here because `local` is reserved in Lean. -/
structure Tunnel where
  remote : Nat
  localUri : URI
  localPort : Option Nat
  name : Option String
  description : Option String
  closeable : Option Bool
deriving DecidableEq, Repr

/-- A tunnel as reported by the external `ITunnelService`
(`tunnelRemotePort`, `tunnelLocalPort`, `localAddress`). -/
structure RemoteTunnel where
  tunnelRemotePort : Nat
  tunnelLocalPort : Option Nat
  localAddress : Option URI
deriving DecidableEq, Repr

/-- The mutable collections of `TunnelModel`. -/
structure TunnelModelState where
  forwarded : List (Nat × Tunnel)
  published : List (Nat × Tunnel)
  candidates : List (Nat × Tunnel)
deriving DecidableEq, Repr

/-- Events fired by `TunnelModel`'s emitters.  `forwardPort` carries an
`Option Tunnel` because the code fires `this.forwarded.get(...)!`, whose
runtime value is `undefined` when the lookup fails despite the non-null
assertion. -/
inductive TunnelEvent where
  | forwardPort (t : Option Tunnel)
  | closePort (r : Nat)
  | portName (r : Nat)
deriving DecidableEq, Repr

/-- Calls made to the external `ITunnelService`. -/
inductive ServiceCall where
  | openTunnel (remote : Nat) (localPort : Option Nat)
  | closeTunnel (remote : Nat)
deriving DecidableEq, Repr

namespace TunnelModel

/-- The state right after the constructor body runs:
`forwarded`, `published` and `candidates` all start as `new Map()`. -/
def initialState : TunnelModelState :=
  { forwarded := [], published := [], candidates := [] }

/-- The asynchronous seeding in the constructor:
`tunnelService.tunnels.then(tunnels => tunnels.forEach(...))` inserts into
`forwarded` each reported tunnel that has a resolved `localAddress`. -/
def seed : TunnelModelState → List RemoteTunnel → TunnelModelState
  | s, [] => s
  | s, t :: rest =>
      match t.localAddress with
      | some addr =>
          seed
            { s with
              forwarded := mset s.forwarded t.tunnelRemotePort
                { remote := t.tunnelRemotePort
                  localUri := addr
                  localPort := t.tunnelLocalPort
                  name := none
                  description := none
                  closeable := none } }
            rest
      | none => seed s rest

/-- The `onTunnelOpened` reaction registered in the constructor. Returns
the new state and the fired events. -/
def onTunnelOpened (s : TunnelModelState) (tunnel : RemoteTunnel) :
    TunnelModelState × List TunnelEvent :=
  let cand :=
    if mhas s.candidates tunnel.tunnelRemotePort then
      mdelete s.candidates tunnel.tunnelRemotePort
    else s.candidates
  let fwd :=
    if !(mhas s.forwarded tunnel.tunnelRemotePort) then
      match tunnel.localAddress with
      | some addr =>
          mset s.forwarded tunnel.tunnelRemotePort
            { remote := tunnel.tunnelRemotePort
              localUri := addr
              localPort := tunnel.tunnelLocalPort
              name := none
              description := none
              closeable := none }
      | none => s.forwarded
    else s.forwarded
  let s' : TunnelModelState := { s with candidates := cand, forwarded := fwd }
  (s', [TunnelEvent.forwardPort (mget s'.forwarded tunnel.tunnelRemotePort)])

/-- The `onTunnelClosed` reaction registered in the constructor. -/
def onTunnelClosed (s : TunnelModelState) (remotePort : Nat) :
    TunnelModelState × List TunnelEvent :=
  if mhas s.forwarded remotePort then
    ({ s with forwarded := mdelete s.forwarded remotePort },
     [TunnelEvent.closePort remotePort])
  else (s, [])

/-- Method `forward(remote, local?, name?)`.  The response of
`tunnelService.openTunnel` is passed in as `resp` (`none` embeds both a
rejected promise and an `undefined` result).  Returns the new state, the
fired events, and the service calls made. -/
def forward (s : TunnelModelState) (remote : Nat) (localPort : Option Nat)
    (name : Option String) (resp : Option RemoteTunnel) :
    TunnelModelState × List TunnelEvent × List ServiceCall :=
  if mhas s.forwarded remote then (s, [], [])
  else
    match resp with
    | some tunnel =>
        match tunnel.localAddress with
        | some addr =>
            let newForward : Tunnel :=
              { remote := tunnel.tunnelRemotePort
                localPort := tunnel.tunnelLocalPort
                name := name
                closeable := some true
                localUri := addr
                description := none }
            ({ s with forwarded := mset s.forwarded remote newForward },
             [TunnelEvent.forwardPort (some newForward)],
             [ServiceCall.openTunnel remote localPort])
        | none => (s, [], [ServiceCall.openTunnel remote localPort])
    | none => (s, [], [ServiceCall.openTunnel remote localPort])

/-- Method `name(remote, name)`: rename the forwarded entry in place
(`forwarded.get(remote)!.name = name` mutates the stored object, which on
association lists is an in-place `mset` of the updated record). -/
def name (s : TunnelModelState) (remote : Nat) (newName : String) :
    TunnelModelState × List TunnelEvent :=
  match mget s.forwarded remote with
  | some t =>
      ({ s with forwarded := mset s.forwarded remote { t with name := some newName } },
       [TunnelEvent.portName remote])
  | none => (s, [])

/-- Method `close(remote)`: delegate to `tunnelService.closeTunnel`. -/
def close (s : TunnelModelState) (remote : Nat) :
    TunnelModelState × List TunnelEvent × List ServiceCall :=
  (s, [], [ServiceCall.closeTunnel remote])

/-- Method `address(remote)`:
`(this.forwarded.get(remote) || this.published.get(remote))?.localUri`. -/
def address (s : TunnelModelState) (remote : Nat) : Option URI :=
  match mget s.forwarded remote with
  | some t => some t.localUri
  | none =>
      match mget s.published remote with
      | some t => some t.localUri
      | none => none

end TunnelModel

/-- The `TunnelType` enum of tunnelView. -/
inductive TunnelType where
  | Candidate
  | Published
  | Forwarded
  | Add
deriving DecidableEq, Repr

/-- Structure `TunnelItem` of tunnelView (the TS field `local` is `localPort` here,
`local` being reserved in Lean). -/
structure TunnelItem where
  tunnelType : TunnelType
  remote : Nat
  closeable : Option Bool
  name : Option String
  description : Option String
  localPort : Option Nat
deriving DecidableEq, Repr

/-- Structure `ITunnelGroup` of tunnelView. -/
structure TunnelGroup where
  tunnelType : TunnelType
  label : String
  items : Option (List TunnelItem)
deriving DecidableEq, Repr

namespace TunnelViewModel

/-- The `forwarded` getter: one `TunnelItem` per entry of the model's
`forwarded` map, in map order. -/
def forwarded (s : TunnelModelState) : List TunnelItem :=
  s.forwarded.map (fun p =>
    { tunnelType := TunnelType.Forwarded
      remote := p.2.remote
      closeable := p.2.closeable
      name := p.2.name
      description := p.2.description
      localPort := p.2.localPort })

/-- The `published` getter. -/
def published (s : TunnelModelState) : List TunnelItem :=
  s.published.map (fun p =>
    { tunnelType := TunnelType.Published
      remote := p.2.remote
      closeable := some false
      name := p.2.name
      description := p.2.description
      localPort := p.2.localPort })

/-- The `candidates` getter: iterate the model's `candidates` values and
keep only those whose `remote` is in neither `forwarded` nor `published`. -/
def candidates (s : TunnelModelState) : List TunnelItem :=
  (s.candidates.filter (fun p =>
      !(mhas s.forwarded p.2.remote) && !(mhas s.published p.2.remote))).map
    (fun p =>
      { tunnelType := TunnelType.Candidate
        remote := p.2.remote
        closeable := some false
        name := none
        description := p.2.description
        localPort := none })

/-- The `groups` getter: pushes a Forwarded group when the forwarded map is
non-empty, then a Published group when the published map is non-empty, then
a Candidates group when the derived candidates list is non-empty, then
always the Add group. -/
def groups (s : TunnelModelState) : List TunnelGroup :=
  (if s.forwarded.length > 0 then
    [{ tunnelType := TunnelType.Forwarded, label := "Forwarded",
       items := some (forwarded s) }]
   else []) ++
  (if s.published.length > 0 then
    [{ tunnelType := TunnelType.Published, label := "Published",
       items := some (published s) }]
   else []) ++
  (if (candidates s).length > 0 then
    [{ tunnelType := TunnelType.Candidate, label := "Candidates",
       items := some (candidates s) }]
   else []) ++
  [{ tunnelType := TunnelType.Add, label := "Add a Port...", items := none }]

end TunnelViewModel

/-- One interaction step of the model: either the asynchronous constructor
seeding resolving, a method call (with the external service's response where
one is consulted), or an external notification. -/
inductive Op where
  | seed (tunnels : List RemoteTunnel)
  | forward (remote : Nat) (localPort : Option Nat) (name : Option String)
      (resp : Option RemoteTunnel)
  | name (remote : Nat) (newName : String)
  | close (remote : Nat)
  | tunnelOpened (tunnel : RemoteTunnel)
  | tunnelClosed (remotePort : Nat)
deriving DecidableEq, Repr

/-- State reached after one operation. -/
def applyOp (s : TunnelModelState) : Op → TunnelModelState
  | Op.seed tunnels => TunnelModel.seed s tunnels
  | Op.forward r l n resp => (TunnelModel.forward s r l n resp).1
  | Op.name r n => (TunnelModel.name s r n).1
  | Op.close r => (TunnelModel.close s r).1
  | Op.tunnelOpened t => (TunnelModel.onTunnelOpened s t).1
  | Op.tunnelClosed r => (TunnelModel.onTunnelClosed s r).1

/-- State reached by a sequence of operations from the freshly constructed
model. -/
def run (ops : List Op) : TunnelModelState :=
  ops.foldl applyOp TunnelModel.initialState

/-! Concrete sample values used by the witness theorems. -/

def sampleURI : URI := { value := "http://localhost:8080" }

def sampleTunnel : Tunnel :=
  { remote := 3000
    localUri := sampleURI
    localPort := some 4000
    name := some "web"
    description := none
    closeable := some true }

def sampleState : TunnelModelState :=
  { forwarded := [(3000, sampleTunnel)], published := [], candidates := [] }

def sampleRemoteTunnel : RemoteTunnel :=
  { tunnelRemotePort := 8080
    tunnelLocalPort := some 8081
    localAddress := some sampleURI }

def sampleCandidateTunnel : Tunnel :=
  { remote := 4000
    localUri := sampleURI
    localPort := none
    name := none
    description := some "node"
    closeable := none }

def sampleState2 : TunnelModelState :=
  { forwarded := [(3000, sampleTunnel)]
    published := []
    candidates := [(3000, sampleTunnel), (4000, sampleCandidateTunnel)] }

/-- The item the candidates getter derives from `sampleCandidateTunnel`. -/
def sampleCandidateItem : TunnelItem :=
  { tunnelType := TunnelType.Candidate
    remote := 4000
    closeable := some false
    name := none
    description := some "node"
    localPort := none }

/-- Claim C5: an external tunnel-closed notification for a port present in
`forwarded` removes exactly that entry (other entries and the other two maps
are untouched) and fires exactly one port-closed event carrying the port;
for an absent port nothing changes and nothing fires. -/
theorem C5_onTunnelClosed_spec (s : TunnelModelState) (r : Nat) :
    (mhas s.forwarded r = true →
      mget (TunnelModel.onTunnelClosed s r).1.forwarded r = none ∧
      (∀ r', r' ≠ r →
        mget (TunnelModel.onTunnelClosed s r).1.forwarded r' = mget s.forwarded r') ∧
      (TunnelModel.onTunnelClosed s r).1.published = s.published ∧
      (TunnelModel.onTunnelClosed s r).1.candidates = s.candidates ∧
      (TunnelModel.onTunnelClosed s r).2 = [TunnelEvent.closePort r]) ∧
    (mhas s.forwarded r = false →
      (TunnelModel.onTunnelClosed s r).1 = s ∧
      (TunnelModel.onTunnelClosed s r).2 = []) := by
  constructor
  · intro h
    have e : TunnelModel.onTunnelClosed s r =
        ({ s with forwarded := mdelete s.forwarded r }, [TunnelEvent.closePort r]) := by
      simp [TunnelModel.onTunnelClosed, h]
    rw [e]
    exact ⟨mget_mdelete_self _ _, fun r' hr' => mget_mdelete_ne _ _ _ hr', rfl, rfl, rfl⟩
  · intro h
    simp [TunnelModel.onTunnelClosed, h]

theorem C5_onTunnelClosed_spec_witness :
    mget (TunnelModel.onTunnelClosed sampleState 3000).1.forwarded 3000 = none ∧
    (TunnelModel.onTunnelClosed sampleState 3000).2 = [TunnelEvent.closePort 3000] := by
  have h := (C5_onTunnelClosed_spec sampleState 3000).1 (by decide)
  exact ⟨h.1, h.2.2.2.2⟩

/-- Claim C6: close(r) itself leaves all three maps unchanged and fires no
event; it only issues the service's closeTunnel call. -/
theorem C6_close_frame (s : TunnelModelState) (r : Nat) :
    (TunnelModel.close s r).1 = s ∧
    (TunnelModel.close s r).2.1 = [] ∧
    (TunnelModel.close s r).2.2 = [ServiceCall.closeTunnel r] :=
  ⟨rfl, rfl, rfl⟩

/-- Claim C7: address(r) returns the localUri of the forwarded entry for r
when one exists, else the localUri of the published entry, else nothing. -/
theorem C7_address_lookup (s : TunnelModelState) (r : Nat) :
    (∀ t, mget s.forwarded r = some t →
      TunnelModel.address s r = some t.localUri) ∧
    (mget s.forwarded r = none →
      ∀ t, mget s.published r = some t →
        TunnelModel.address s r = some t.localUri) ∧
    (mget s.forwarded r = none → mget s.published r = none →
      TunnelModel.address s r = none) :=
  ⟨fun t ht => by simp [TunnelModel.address, ht],
   fun hf t hp => by simp [TunnelModel.address, hf, hp],
   fun hf hp => by simp [TunnelModel.address, hf, hp]⟩

theorem C7_address_lookup_witness :
    TunnelModel.address sampleState 3000 = some sampleURI :=
  (C7_address_lookup sampleState 3000).1 sampleTunnel rfl

/-- Claim C8: name(r, n) replaces only the name field of the forwarded entry
at r (other fields, other entries, and the other maps unchanged) and fires
exactly one port-name-changed event; when r is absent nothing changes and
nothing fires. -/
theorem C8_name_spec (s : TunnelModelState) (r : Nat) (n : String) :
    (∀ t, mget s.forwarded r = some t →
      mget (TunnelModel.name s r n).1.forwarded r = some { t with name := some n } ∧
      (∀ r', r' ≠ r →
        mget (TunnelModel.name s r n).1.forwarded r' = mget s.forwarded r') ∧
      (TunnelModel.name s r n).1.published = s.published ∧
      (TunnelModel.name s r n).1.candidates = s.candidates ∧
      (TunnelModel.name s r n).2 = [TunnelEvent.portName r]) ∧
    (mget s.forwarded r = none →
      (TunnelModel.name s r n).1 = s ∧
      (TunnelModel.name s r n).2 = []) := by
  constructor
  · intro t ht
    have e : TunnelModel.name s r n =
        ({ s with forwarded := mset s.forwarded r { t with name := some n } },
         [TunnelEvent.portName r]) := by
      simp [TunnelModel.name, ht]
    rw [e]
    exact ⟨mget_mset_self _ _ _, fun r' hr' => mget_mset_ne _ _ _ _ hr', rfl, rfl, rfl⟩
  · intro h
    simp [TunnelModel.name, h]

theorem C8_name_spec_witness :
    mget (TunnelModel.name sampleState 3000 "db").1.forwarded 3000 =
      some { sampleTunnel with name := some "db" } ∧
    (TunnelModel.name sampleState 3000 "db").2 = [TunnelEvent.portName 3000] := by
  have h := (C8_name_spec sampleState 3000 "db").1 sampleTunnel rfl
  exact ⟨h.1, h.2.2.2.2⟩

/-- Claim C1 (evaluation at the failing input): a tunnel-opened notification
for a port absent from `forwarded` whose tunnel has no resolved local
address fires the forwarded-port-added event with a failed lookup — the
payload `forwarded.get(r)` is not a Tunnel entry, contradicting the code's
own non-null assertion `forwarded.get(...)!`. -/
theorem C1_onTunnelOpened_undefined_payload :
    (TunnelModel.onTunnelOpened TunnelModel.initialState
        { tunnelRemotePort := 8080, tunnelLocalPort := none, localAddress := none }).2
      = [TunnelEvent.forwardPort none] ∧
    mget (TunnelModel.onTunnelOpened TunnelModel.initialState
        { tunnelRemotePort := 8080, tunnelLocalPort := none, localAddress := none }).1.forwarded
      8080 = none :=
  ⟨rfl, rfl⟩

/-- Claim C2: forward(r, l, n) with r not yet forwarded and the service
returning a tunnel with a resolved local address stores at key r an entry
with remote r, the server-assigned local port (which is the requested one
whenever the service honours the request), the given name and
closeable = true, and fires exactly one forwarded-port-added event carrying
that entry. -/
theorem C2_forward_success (s : TunnelModelState) (r : Nat) (l : Option Nat)
    (n : Option String) (t : RemoteTunnel) (addr : URI)
    (habs : mhas s.forwarded r = false)
    (hremote : t.tunnelRemotePort = r)
    (haddr : t.localAddress = some addr)
    (hlocal : ∀ lp, l = some lp → t.tunnelLocalPort = some lp) :
    ∃ e : Tunnel,
      mget (TunnelModel.forward s r l n (some t)).1.forwarded r = some e ∧
      e.remote = r ∧
      e.localPort = t.tunnelLocalPort ∧
      (∀ lp, l = some lp → e.localPort = some lp) ∧
      e.name = n ∧
      e.closeable = some true ∧
      (TunnelModel.forward s r l n (some t)).2.1 = [TunnelEvent.forwardPort (some e)] := by
  refine ⟨{ remote := t.tunnelRemotePort
            localPort := t.tunnelLocalPort
            name := n
            closeable := some true
            localUri := addr
            description := none },
          ?_, hremote, rfl, fun lp hl => hlocal lp hl, rfl, rfl, ?_⟩
  · simp [TunnelModel.forward, habs, haddr, mget_mset_self]
  · simp [TunnelModel.forward, habs, haddr]

theorem C2_forward_success_witness :
    ∃ e : Tunnel,
      mget (TunnelModel.forward TunnelModel.initialState 8080 (some 8081)
        (some "web") (some sampleRemoteTunnel)).1.forwarded 8080 = some e ∧
      e.remote = 8080 ∧
      e.localPort = some 8081 ∧
      e.name = some "web" ∧
      e.closeable = some true := by
  obtain ⟨e, h1, h2, h3, h4, h5, h6, h7⟩ :=
    C2_forward_success TunnelModel.initialState 8080 (some 8081) (some "web")
      sampleRemoteTunnel sampleURI rfl rfl rfl
      (fun lp hl => by injection hl with h2; subst h2; rfl)
  exact ⟨e, h1, h2, h4 8081 rfl, h5, h6⟩

/-- Claim C4: forward(r, l, n) changes no map and fires no event when r is
already forwarded, when the service call fails, or when the returned tunnel
has no resolved local address. -/
theorem C4_forward_noop (s : TunnelModelState) (r : Nat) (l : Option Nat)
    (n : Option String) (resp : Option RemoteTunnel)
    (h : mhas s.forwarded r = true ∨ resp = none ∨
         ∃ t, resp = some t ∧ t.localAddress = none) :
    (TunnelModel.forward s r l n resp).1 = s ∧
    (TunnelModel.forward s r l n resp).2.1 = [] := by
  rcases h with h | h | ⟨t, ht, ha⟩
  · simp [TunnelModel.forward, h]
  · by_cases hh : mhas s.forwarded r <;> simp [TunnelModel.forward, hh, h]
  · by_cases hh : mhas s.forwarded r <;> simp [TunnelModel.forward, hh, ht, ha]

theorem C4_forward_noop_witness :
    (TunnelModel.forward sampleState 3000 none none none).1 = sampleState ∧
    (TunnelModel.forward sampleState 3000 none none none).2.1 = [] :=
  C4_forward_noop sampleState 3000 none none none (Or.inl (by decide))

/-- Claim C3: a remote port present in `forwarded` or in `published` never
appears in the candidates list derived by the view model. -/
theorem C3_candidates_filtered (s : TunnelModelState) (r : Nat)
    (h : mhas s.forwarded r = true ∨ mhas s.published r = true) :
    ∀ item ∈ TunnelViewModel.candidates s, item.remote ≠ r := by
  intro item hitem hr
  unfold TunnelViewModel.candidates at hitem
  rw [List.mem_map] at hitem
  obtain ⟨p, hp, hf⟩ := hitem
  rw [List.mem_filter] at hp
  have hcond := hp.2
  have hrem : item.remote = p.2.remote := by rw [← hf]
  have hpr : p.2.remote = r := by rw [← hrem]; exact hr
  simp only [Bool.and_eq_true, Bool.not_eq_true'] at hcond
  rw [hpr] at hcond
  rcases h with h | h
  · rw [hcond.1] at h
    exact Bool.false_ne_true h
  · rw [hcond.2] at h
    exact Bool.false_ne_true h

theorem C3_candidates_filtered_witness :
    sampleCandidateItem.remote ≠ 3000 :=
  C3_candidates_filtered sampleState2 3000 (Or.inl (by decide))
    sampleCandidateItem (by decide)

/-- Claim C9: the groups getter produces, in order, a Forwarded group exactly
when `forwarded` is non-empty, then a Published group exactly when
`published` is non-empty, then a Candidates group exactly when the filtered
candidates list is non-empty, and finally always an Add group last. -/
theorem C9_groups_structure (s : TunnelModelState) :
    (TunnelViewModel.groups s).map TunnelGroup.tunnelType =
      (if s.forwarded ≠ [] then [TunnelType.Forwarded] else []) ++
      (if s.published ≠ [] then [TunnelType.Published] else []) ++
      (if TunnelViewModel.candidates s ≠ [] then [TunnelType.Candidate] else []) ++
      [TunnelType.Add] := by
  by_cases h1 : s.forwarded = [] <;> by_cases h2 : s.published = [] <;>
    by_cases h3 : TunnelViewModel.candidates s = [] <;>
    simp [TunnelViewModel.groups, h1, h2, h3, List.length_pos]

theorem seed_published_eq (ts : List RemoteTunnel) (s : TunnelModelState) :
    (TunnelModel.seed s ts).published = s.published := by
  induction ts generalizing s with
  | nil => rfl
  | cons t rest ih =>
      cases h : t.localAddress <;> simp [TunnelModel.seed, h, ih]

theorem seed_candidates_eq (ts : List RemoteTunnel) (s : TunnelModelState) :
    (TunnelModel.seed s ts).candidates = s.candidates := by
  induction ts generalizing s with
  | nil => rfl
  | cons t rest ih =>
      cases h : t.localAddress <;> simp [TunnelModel.seed, h, ih]

theorem applyOp_published_eq (s : TunnelModelState) (op : Op) :
    (applyOp s op).published = s.published := by
  cases op with
  | seed ts => exact seed_published_eq ts s
  | forward r l n resp =>
      by_cases h : mhas s.forwarded r
      · simp [applyOp, TunnelModel.forward, h]
      · cases resp with
        | none => simp [applyOp, TunnelModel.forward, h]
        | some t =>
            cases ha : t.localAddress <;> simp [applyOp, TunnelModel.forward, h, ha]
  | name r n =>
      cases hg : mget s.forwarded r <;> simp [applyOp, TunnelModel.name, hg]
  | close r => rfl
  | tunnelOpened t => rfl
  | tunnelClosed r =>
      by_cases h : mhas s.forwarded r <;> simp [applyOp, TunnelModel.onTunnelClosed, h]

theorem applyOp_candidates_empty (s : TunnelModelState) (op : Op)
    (h : s.candidates = []) : (applyOp s op).candidates = [] := by
  cases op with
  | seed ts => rw [applyOp, seed_candidates_eq]; exact h
  | forward r l n resp =>
      by_cases hh : mhas s.forwarded r
      · simpa [applyOp, TunnelModel.forward, hh] using h
      · cases resp with
        | none => simpa [applyOp, TunnelModel.forward, hh] using h
        | some t =>
            cases ha : t.localAddress <;>
              simpa [applyOp, TunnelModel.forward, hh, ha] using h
  | name r n =>
      cases hg : mget s.forwarded r <;> simpa [applyOp, TunnelModel.name, hg] using h
  | close r => exact h
  | tunnelOpened t =>
      simp [applyOp, TunnelModel.onTunnelOpened, h, mhas, mget]
  | tunnelClosed r =>
      by_cases hh : mhas s.forwarded r <;>
        simpa [applyOp, TunnelModel.onTunnelClosed, hh] using h

/-- Claim C10: in every state reachable by seeding, method calls and
notifications from the freshly constructed model, `published` and
`candidates` are empty; consequently address(r) is exactly the lookup of
r's forwarded entry, and the Published and Candidates display groups never
appear. -/
theorem C10_published_candidates_never_populated (ops : List Op) :
    (run ops).published = [] ∧
    (run ops).candidates = [] ∧
    (∀ r, TunnelModel.address (run ops) r =
      (mget (run ops).forwarded r).map Tunnel.localUri) ∧
    TunnelType.Published ∉
      (TunnelViewModel.groups (run ops)).map TunnelGroup.tunnelType ∧
    TunnelType.Candidate ∉
      (TunnelViewModel.groups (run ops)).map TunnelGroup.tunnelType := by
  have key : ∀ (l : List Op) (s : TunnelModelState),
      s.published = [] ∧ s.candidates = [] →
      (List.foldl applyOp s l).published = [] ∧
      (List.foldl applyOp s l).candidates = [] := by
    intro l
    induction l with
    | nil => intro s hs; exact hs
    | cons op rest ih =>
        intro s hs
        rw [List.foldl_cons]
        refine ih _ ⟨?_, ?_⟩
        · rw [applyOp_published_eq]; exact hs.1
        · exact applyOp_candidates_empty s op hs.2
  have hmain := key ops TunnelModel.initialState ⟨rfl, rfl⟩
  have hpub : (run ops).published = [] := hmain.1
  have hcand : (run ops).candidates = [] := hmain.2
  have hviewcand : TunnelViewModel.candidates (run ops) = [] := by
    rw [TunnelViewModel.candidates, hcand]; rfl
  refine ⟨hpub, hcand, ?_, ?_, ?_⟩
  · intro r
    cases hg : mget (run ops).forwarded r <;>
      simp [TunnelModel.address, hg, hpub, mget]
  · by_cases hf : (run ops).forwarded = [] <;>
      simp [TunnelViewModel.groups, hpub, hviewcand, hf, List.length_pos]
  · by_cases hf : (run ops).forwarded = [] <;>
      simp [TunnelViewModel.groups, hpub, hviewcand, hf, List.length_pos]

end TunnelSpec
